import Mathlib

set_option maxRecDepth 40000

/-!
Shallow embedding of the message-webhook service (`app/` of the repository):
HMAC-SHA256 signature verification (`app/routes/webhook.py`), payload
validation (`WebhookMessage`), the SQLite-backed message store
(`app/storage.py` over the schema of `app/models.py`), and the webhook
ingestion pipeline.  Bytes are `Nat` values below 256; machine words are
`Nat` reduced modulo `2 ^ 32` where overflow matters.
-/

namespace Webhook

/-! ### SHA-256 (the `hashlib.sha256` collaborator), bytes as `Nat < 256` -/

def add32 (a b : Nat) : Nat := (a + b) % 4294967296

def rotr (n x : Nat) : Nat := ((x >>> n) ||| (x <<< (32 - n))) % 4294967296

def bigSigma0 (x : Nat) : Nat := (rotr 2 x) ^^^ (rotr 13 x) ^^^ (rotr 22 x)

def bigSigma1 (x : Nat) : Nat := (rotr 6 x) ^^^ (rotr 11 x) ^^^ (rotr 25 x)

def smallSigma0 (x : Nat) : Nat := (rotr 7 x) ^^^ (rotr 18 x) ^^^ (x >>> 3)

def smallSigma1 (x : Nat) : Nat := (rotr 17 x) ^^^ (rotr 19 x) ^^^ (x >>> 10)

def chFn (x y z : Nat) : Nat := (x &&& y) ^^^ ((x ^^^ 4294967295) &&& z)

def majFn (x y z : Nat) : Nat := (x &&& y) ^^^ (x &&& z) ^^^ (y &&& z)

/-- The 64 SHA-256 round constants (FIPS 180-4), written in decimal. -/
def shaK : List Nat :=
  [1116352408, 1899447441, 3049323471, 3921009573, 961987163, 1508970993,
   2453635748, 2870763221, 3624381080, 310598401, 607225278, 1426881987,
   1925078388, 2162078206, 2614888103, 3248222580, 3835390401, 4022224774,
   264347078, 604807628, 770255983, 1249150122, 1555081692, 1996064986,
   2554220882, 2821834349, 2952996808, 3210313671, 3336571891, 3584528711,
   113926993, 338241895, 666307205, 773529912, 1294757372, 1396182291,
   1695183700, 1986661051, 2177026350, 2456956037, 2730485921, 2820302411,
   3259730800, 3345764771, 3516065817, 3600352804, 4094571909, 275423344,
   430227734, 506948616, 659060556, 883997877, 958139571, 1322822218,
   1537002063, 1747873779, 1955562222, 2024104815, 2227730452, 2361852424,
   2428436474, 2756734187, 3204031479, 3329325298]

/-- The SHA-256 initial hash state (FIPS 180-4), written in decimal. -/
def shaH0 : List Nat :=
  [1779033703, 3144134277, 1013904242, 2773480762, 1359893119, 2600822924,
   528734635, 1541459225]

/-- Big-endian byte encoding of `v` on `k` bytes. -/
def toBytesBE (k v : Nat) : List Nat :=
  (List.range k).reverse.map (fun i => v / 256 ^ i % 256)

/-- SHA-256 padding: append `0x80`, zeros up to 56 mod 64, then the 8-byte
big-endian bit length. -/
def shaPad (msg : List Nat) : List Nat :=
  msg ++ [0x80] ++ List.replicate ((119 - msg.length % 64) % 64) 0
      ++ toBytesBE 8 (msg.length * 8)

/-- Group 4 bytes (big-endian) into one 32-bit word. -/
def bytesToWords : List Nat → List Nat
  | a :: b :: c :: d :: rest =>
      (((a * 256 + b) * 256 + c) * 256 + d) :: bytesToWords rest
  | _ => []

/-- One word-extension step: append word `t` computed from words `t-2`, `t-7`,
`t-15`, `t-16`. -/
def extendStep (w : List Nat) : List Nat :=
  w ++ [add32
    (add32 (smallSigma1 (w.getD (w.length - 2) 0)) (w.getD (w.length - 7) 0))
    (add32 (smallSigma0 (w.getD (w.length - 15) 0)) (w.getD (w.length - 16) 0))]

def extendLoop : Nat → List Nat → List Nat
  | 0, w => w
  | n + 1, w => extendLoop n (extendStep w)

/-- Extend the 16-word schedule of a chunk to 64 words. -/
def extendSchedule (w : List Nat) : List Nat := extendLoop 48 w

def compressRound (s : List Nat) (kw : Nat × Nat) : List Nat :=
  match s with
  | [a, b, c, d, e, f, g, h] =>
      let t1 := add32 h (add32 (bigSigma1 e) (add32 (chFn e f g) (add32 kw.1 kw.2)))
      let t2 := add32 (bigSigma0 a) (majFn a b c)
      [add32 t1 t2, a, b, c, add32 d t1, e, f, g]
  | _ => s

def compressChunk (hs chunk : List Nat) : List Nat :=
  let w := extendSchedule (bytesToWords chunk)
  let s := (shaK.zip w).foldl compressRound hs
  (hs.zip s).map (fun p => add32 p.1 p.2)

def chunksLoop : Nat → List Nat → List (List Nat)
  | 0, _ => []
  | fuel + 1, l => if l = [] then [] else l.take 64 :: chunksLoop fuel (l.drop 64)

/-- Split a byte list into 64-byte chunks. -/
def chunksOf64 (l : List Nat) : List (List Nat) := chunksLoop (l.length + 1) l

/-- SHA-256 digest (32 bytes) of a byte list. -/
def sha256 (msg : List Nat) : List Nat :=
  (((chunksOf64 (shaPad msg)).foldl compressChunk shaH0).map (toBytesBE 4)).flatten

/-! ### HMAC-SHA256 (the `hmac` collaborator) and hex encoding -/

def hmacSha256 (key msg : List Nat) : List Nat :=
  let k0 := if 64 < key.length then sha256 key else key
  let k := k0 ++ List.replicate (64 - k0.length) 0
  sha256 ((k.map (· ^^^ 0x5c)) ++ sha256 ((k.map (· ^^^ 0x36)) ++ msg))

def hexChar (n : Nat) : Char :=
  if n < 10 then Char.ofNat (48 + n) else Char.ofNat (87 + n)

/-- Lowercase hex encoding of a byte list, as `.hexdigest()` produces. -/
def hexdigest (bytes : List Nat) : String :=
  ⟨(bytes.map (fun b => [hexChar (b / 16), hexChar (b % 16)])).flatten⟩

/-- UTF-8 encoding of one character (Python `str.encode()`). -/
def utf8EncodeChar (c : Char) : List Nat :=
  let n := c.toNat
  if n < 0x80 then [n]
  else if n < 0x800 then
    [0xC0 ||| (n >>> 6), 0x80 ||| (n &&& 0x3F)]
  else if n < 0x10000 then
    [0xE0 ||| (n >>> 12), 0x80 ||| ((n >>> 6) &&& 0x3F), 0x80 ||| (n &&& 0x3F)]
  else
    [0xF0 ||| (n >>> 18), 0x80 ||| ((n >>> 12) &&& 0x3F),
     0x80 ||| ((n >>> 6) &&& 0x3F), 0x80 ||| (n &&& 0x3F)]

/-- UTF-8 encoding of a string (Python `str.encode()`). -/
def utf8 (s : String) : List Nat := (s.data.map utf8EncodeChar).flatten

/-! ### Signature verification (`verify_signature` in `app/routes/webhook.py`) -/

def isAsciiString (s : String) : Bool := s.data.all (fun c => decide (c.toNat < 128))

/-- `hmac.compare_digest` on two `str` arguments.  CPython raises `TypeError`
when either string contains a non-ASCII character (modelled as `none`);
otherwise it is a timing-safe equality test. -/
def compare_digest (a b : String) : Option Bool :=
  if isAsciiString a && isAsciiString b then some (a == b) else none

/-- Python truthiness of an optional string: `None` and `""` are falsy. -/
def pyTruthy : Option String → Bool
  | none => false
  | some s => !(s == "")

/-- `verify_signature(body, signature_header)` of `app/routes/webhook.py`,
with the process-wide `settings.webhook_secret` passed explicitly.
`some b` models a `bool` return; `none` models a raised `TypeError`. -/
def verify_signature (webhook_secret : Option String) (body : List Nat)
    (signature_header : Option String) : Option Bool :=
  if !(pyTruthy signature_header) then some false
  else if !(pyTruthy webhook_secret) then some false
  else
    compare_digest (hexdigest (hmacSha256 (utf8 (webhook_secret.getD "")) body))
      (signature_header.getD "")

/-! ### The message store (`app/storage.py` over the schema of `app/models.py`) -/

/-- One row of the `messages` table (`init_db` in `app/models.py`);
`message_id` is the PRIMARY KEY, `text` is nullable. -/
structure Row where
  message_id : String
  from_msisdn : String
  to_msisdn : String
  ts : String
  text : Option String
  created_at : String
deriving DecidableEq

/-- The `messages` table as a list of rows in insertion order. -/
abbrev Store := List Row

/-- `insert_message` of `app/storage.py`: a plain INSERT; the
`sqlite3.IntegrityError` raised on a duplicate PRIMARY KEY is caught and
reported as `(False, "duplicate")`, otherwise `(True, "created")`.  The
`created_at` reading (`datetime.utcnow().isoformat() + "Z"`) is passed in
explicitly. -/
def insert_message (store : Store) (message_id from_msisdn to_msisdn ts : String)
    (text : Option String) (created_at : String) : Store × Bool × String :=
  if store.any (fun r => r.message_id == message_id) then
    (store, false, "duplicate")
  else
    (store ++ [⟨message_id, from_msisdn, to_msisdn, ts, text, created_at⟩],
     true, "created")

/-- SQLite default ASCII case folding used by `LIKE`: `A`–`Z` fold to
lowercase, everything else is left alone. -/
def likeFold (c : Char) : Char :=
  if 65 ≤ c.toNat ∧ c.toNat ≤ 90 then Char.ofNat (c.toNat + 32) else c

/-- SQLite `LIKE` matching (fuel-indexed for structural recursion): `%`
matches any character sequence, `_` any single character, and other pattern
characters match case-insensitively for ASCII letters. -/
def likeLoop : Nat → List Char → List Char → Bool
  | 0, _, _ => false
  | _ + 1, [], [] => true
  | _ + 1, [], _ :: _ => false
  | fuel + 1, '%' :: ps, [] => likeLoop fuel ps []
  | fuel + 1, '%' :: ps, t :: ts =>
      likeLoop fuel ps (t :: ts) || likeLoop fuel ('%' :: ps) ts
  | fuel + 1, '_' :: ps, _ :: ts => likeLoop fuel ps ts
  | _ + 1, '_' :: _, [] => false
  | fuel + 1, p :: ps, t :: ts =>
      (likeFold p == likeFold t) && likeLoop fuel ps ts
  | _ + 1, _ :: _, [] => false

def likeMatch (patt text : List Char) : Bool :=
  likeLoop (patt.length + text.length + 1) patt text

/-- The WHERE clause assembled by `get_messages` of `app/storage.py`:
`from_msisdn = ?`, `ts >= ?` (BINARY string comparison, which on `Z`-suffixed
ISO strings is the Lean `String` order), and `text LIKE '%' + q + '%'`
(`NULL` text never matches).  Python truthiness: a `None` or empty filter
value adds no condition. -/
def matchesFilters (fromF sinceF qF : Option String) (r : Row) : Bool :=
  (if pyTruthy fromF then r.from_msisdn == fromF.getD "" else true) &&
  (if pyTruthy sinceF then decide ((sinceF.getD "").data ≤ r.ts.data) else true) &&
  (if pyTruthy qF then
    (match r.text with
     | none => false
     | some t => likeMatch ('%' :: ((qF.getD "").data ++ ['%'])) t.data)
   else true)

/-- `ORDER BY ts ASC, message_id ASC` of `get_messages`; TEXT values compare
byte-wise under the default BINARY collation, which for UTF-8 is the
lexicographic code-point order on the character lists. -/
def rowLe (a b : Row) : Prop :=
  a.ts.data < b.ts.data ∨
    (a.ts.data = b.ts.data ∧ a.message_id.data ≤ b.message_id.data)

instance rowLe.dec : DecidableRel rowLe := fun a b =>
  inferInstanceAs (Decidable (a.ts.data < b.ts.data ∨
    (a.ts.data = b.ts.data ∧ a.message_id.data ≤ b.message_id.data)))

/-- The five columns selected by `get_messages` (`from_msisdn AS "from"`,
`to_msisdn AS "to"`). -/
structure MsgOut where
  message_id : String
  from_msisdn : String
  to_msisdn : String
  ts : String
  text : Option String
deriving DecidableEq

def toOut (r : Row) : MsgOut :=
  ⟨r.message_id, r.from_msisdn, r.to_msisdn, r.ts, r.text⟩

/-- `get_messages` of `app/storage.py`: `total` counts the rows matching the
filters, the page is the filtered rows ordered by `(ts, message_id)`
ascending, then `OFFSET`-skipped and `LIMIT`-truncated, projected to the
selected columns. -/
def get_messages (store : Store) (limit offset : Nat)
    (fromF sinceF qF : Option String) : List MsgOut × Nat :=
  ((((List.insertionSort rowLe
        (store.filter (matchesFilters fromF sinceF qF))).drop offset).take
      limit).map toOut,
   (store.filter (matchesFilters fromF sinceF qF)).length)

/-- One entry of `messages_per_sender` (`from_msisdn AS "from"`). -/
structure SenderCount where
  from_msisdn : String
  count : Nat
deriving DecidableEq

structure Stats where
  total_messages : Nat
  senders_count : Nat
  messages_per_sender : List SenderCount
  first_message_ts : Option String
  last_message_ts : Option String
deriving DecidableEq

def senderList (store : Store) : List String := store.map (·.from_msisdn)

/-- The `GROUP BY from_msisdn` result: one `(sender, COUNT(*))` entry per
distinct sender.  SQLite leaves the group order unspecified; the embedding
fixes the `dedup` order (the claims proved about it are order-insensitive). -/
def senderCounts (store : Store) : List SenderCount :=
  (senderList store).dedup.map (fun s => ⟨s, (senderList store).count s⟩)

/-- `ORDER BY count DESC` of the top-senders query. -/
def countDesc (a b : SenderCount) : Prop := b.count ≤ a.count

instance countDesc.dec : DecidableRel countDesc := fun a b =>
  inferInstanceAs (Decidable (b.count ≤ a.count))

/-- `get_stats` of `app/storage.py`: `COUNT(*)`, `COUNT(DISTINCT
from_msisdn)`, the per-sender counts ordered by count descending and
truncated by `LIMIT 10`, and `MIN(ts)` / `MAX(ts)` (`NULL` on an empty
table). -/
def get_stats (store : Store) : Stats :=
  { total_messages := store.length
    senders_count := (senderList store).dedup.length
    messages_per_sender := (List.insertionSort countDesc (senderCounts store)).take 10
    first_message_ts := (store.map (·.ts)).min?
    last_message_ts := (store.map (·.ts)).max? }

/-! ### Payload validation (`WebhookMessage` in `app/routes/webhook.py`) -/

/-- Python `str.isdigit` at character level: true for Unicode decimal digits
(category Nd) and for `Numeric_Type=Digit` characters such as the Latin-1
superscripts.  The listed ranges cover the common BMP digit blocks and
every code point used in this development; ASCII `0`–`9` is `48`–`57`. -/
def pyCharIsDigit (c : Char) : Bool :=
  let n := c.toNat
  (48 ≤ n && n ≤ 57) ||
  (n == 0xB2 || n == 0xB3 || n == 0xB9) ||
  (0x660 ≤ n && n ≤ 0x669) || (0x6F0 ≤ n && n ≤ 0x6F9) ||
  (0x966 ≤ n && n ≤ 0x96F) || (0x9E6 ≤ n && n ≤ 0x9EF) ||
  (0xA66 ≤ n && n ≤ 0xA6F) || (0xAE6 ≤ n && n ≤ 0xAEF) ||
  (0xB66 ≤ n && n ≤ 0xB6F) || (0xBE6 ≤ n && n ≤ 0xBEF) ||
  (0xC66 ≤ n && n ≤ 0xC6F) || (0xCE6 ≤ n && n ≤ 0xCEF) ||
  (0xD66 ≤ n && n ≤ 0xD6F) || (0xE50 ≤ n && n ≤ 0xE59) ||
  (0xED0 ≤ n && n ≤ 0xED9) || (0xF20 ≤ n && n ≤ 0xF29) ||
  (n == 0x2070 || (0x2074 ≤ n && n ≤ 0x2079)) ||
  (0x2080 ≤ n && n ≤ 0x2089) || (0xFF10 ≤ n && n ≤ 0xFF19)

/-- Python `str.isdigit` on a string given as its character list:
non-empty and every character is a digit. -/
def pyStrIsDigit (l : List Char) : Bool := !l.isEmpty && l.all pyCharIsDigit

/-- Python `v.startswith("+")`: the first character is `+`. -/
def pyStartsWithPlus (v : String) : Bool :=
  match v.data with
  | c :: _ => c == '+'
  | [] => false

/-- `WebhookMessage.validate_msisdn`: passes iff `v.startswith("+")` and
`v[1:].isdigit()` (Python slicing is by code point, so `v[1:]` is the tail
of the character list). -/
def validate_msisdn (v : String) : Bool :=
  pyStartsWithPlus v && pyStrIsDigit v.data.tail

/-- The `from`/`to` rule as the spec words it (for the C5 comparison): `+`
followed by one or more ASCII digits `0`–`9`. -/
def specMsisdnOk (v : String) : Bool :=
  pyStartsWithPlus v && !v.data.tail.isEmpty &&
    v.data.tail.all (fun c => 48 ≤ c.toNat && c.toNat ≤ 57)

def digitVal (c : Char) : Option Nat :=
  if 48 ≤ c.toNat ∧ c.toNat ≤ 57 then some (c.toNat - 48) else none

def read2 : List Char → Option (Nat × List Char)
  | a :: b :: rest =>
      match digitVal a, digitVal b with
      | some x, some y => some (10 * x + y, rest)
      | _, _ => none
  | _ => none

def read4 : List Char → Option (Nat × List Char)
  | a :: b :: c :: d :: rest =>
      match digitVal a, digitVal b, digitVal c, digitVal d with
      | some x, some y, some z, some w => some (1000 * x + 100 * y + 10 * z + w, rest)
      | _, _, _, _ => none
  | _ => none

/-- Count a leading run of ASCII digits and return the rest. -/
def takeDigits : List Char → Nat × List Char
  | [] => (0, [])
  | c :: rest =>
      if (digitVal c).isSome then
        let p := takeDigits rest
        (p.1 + 1, p.2)
      else (0, c :: rest)

def isLeap (y : Nat) : Bool := y % 4 == 0 && (y % 100 != 0 || y % 400 == 0)

def daysInMonth (y m : Nat) : Nat :=
  if m == 2 then (if isLeap y then 29 else 28)
  else if m == 4 || m == 6 || m == 9 || m == 11 then 30
  else 31

def dateOk (y m d : Nat) : Bool :=
  1 ≤ y && 1 ≤ m && m ≤ 12 && 1 ≤ d && d ≤ daysInMonth y m

/-- A fractional-seconds part: `.` or `,` followed by one or more digits
(CPython 3.11+ truncates extra digits but accepts them). -/
def parseFrac : List Char → Option (List Char)
  | '.' :: rest =>
      let p := takeDigits rest
      if p.1 == 0 then none else some p.2
  | ',' :: rest =>
      let p := takeDigits rest
      if p.1 == 0 then none else some p.2
  | l => some l

/-- A UTC-offset suffix: empty, or `±HH`, `±HHMM`, `±HH:MM`, `±HH:MM:SS`. -/
def parseOffset : List Char → Bool
  | [] => true
  | c :: rest =>
      (c == '+' || c == '-') &&
      match read2 rest with
      | none => false
      | some (oh, r1) =>
        decide (oh ≤ 23) &&
        match r1 with
        | [] => true
        | ':' :: r2 =>
          match read2 r2 with
          | none => false
          | some (om, r3) =>
            decide (om ≤ 59) &&
            match r3 with
            | [] => true
            | ':' :: r4 =>
              match read2 r4 with
              | none => false
              | some (os, r5) => decide (os ≤ 59) && r5.isEmpty
            | _ => false
        | _ =>
          match read2 r1 with
          | none => false
          | some (om, r3) => decide (om ≤ 59) && r3.isEmpty

/-- A time-of-day with optional fraction and offset: `HH[:MM[:SS[.f+]]]` or
the compact `HHMM[SS[.f+]]`, each component range-checked. -/
def parseTime (l : List Char) : Bool :=
  match read2 l with
  | none => false
  | some (hh, r) =>
    decide (hh ≤ 23) &&
    match r with
    | ':' :: r1 =>
      (match read2 r1 with
       | none => false
       | some (mm, r2) =>
         decide (mm ≤ 59) &&
         match r2 with
         | ':' :: r3 =>
           (match read2 r3 with
            | none => false
            | some (ss, r4) =>
              decide (ss ≤ 59) &&
              match parseFrac r4 with
              | none => false
              | some r5 => parseOffset r5)
         | _ => parseOffset r2)
    | _ =>
      match read2 r with
      | some (mm, r2) =>
        decide (mm ≤ 59) &&
        (match read2 r2 with
         | some (ss, r3) =>
           decide (ss ≤ 59) &&
           (match parseFrac r3 with
            | none => false
            | some r4 => parseOffset r4)
         | none => parseOffset r2)
      | none => parseOffset r

/-- Models `datetime.fromisoformat` (CPython 3.11+) on the calendar-date
forms reachable here: `YYYY-MM-DD`, optionally followed by any single
separator character and a time-of-day with optional fraction and UTC
offset.  Calendar validity (month range, month length, leap years) is
checked; the ordinal/week-date and `YYYYMMDD` compact date forms are not
modelled. -/
def pyFromIsoFormatOk (s : String) : Bool :=
  match read4 s.data with
  | none => false
  | some (y, r) =>
    match r with
    | '-' :: r1 =>
      (match read2 r1 with
       | none => false
       | some (m, r2) =>
         match r2 with
         | '-' :: r3 =>
           (match read2 r3 with
            | none => false
            | some (d, r4) =>
              dateOk y m d &&
              match r4 with
              | [] => true
              | _ :: time => parseTime time)
         | _ => false)
    | _ => false

/-- Python `v.replace("Z", "+00:00")`: the pattern is the single character
`Z`, so the call rewrites every `Z` in the string. -/
def pyReplaceZ (s : String) : String :=
  ⟨(s.data.map (fun c => if c == 'Z' then "+00:00".data else [c])).flatten⟩

/-- Python `v.endswith("Z")`: the last character is `Z`. -/
def pyEndsWithZ (v : String) : Bool :=
  match v.data.getLast? with
  | some c => c == 'Z'
  | none => false

/-- `WebhookMessage.validate_timestamp`: passes iff `v.endswith("Z")` and
`datetime.fromisoformat(v.replace("Z", "+00:00"))` does not raise. -/
def validate_timestamp (v : String) : Bool :=
  pyEndsWithZ v && pyFromIsoFormatOk (pyReplaceZ v)

/-! ### The `/webhook` handler (`app/routes/webhook.py`) -/

/-- A successfully constructed `WebhookMessage`. -/
structure ParsedMessage where
  message_id : String
  from_msisdn : String
  to_msisdn : String
  ts : String
  text : Option String
deriving DecidableEq

/-- The caller-visible terminal outcome of one `/webhook` request:
the HTTP 401 / 422 detail strings, the 200 success (for both `created`
and `duplicate`), or a propagated exception (HTTP 500). -/
inductive WebhookOutcome where
  | unauthorized (detail : String)
  | validationFailed (detail : String)
  | accepted (result : String)
  | serverError
deriving DecidableEq

/-- The `webhook` handler of `app/routes/webhook.py`.  `parse` is the
`json.loads` + `WebhookMessage(**data)` collaborator: `.error e` carries
`str(e)`, the text of the raised exception.  The handler checks the
signature first, then parses and validates, then persists; the 422 detail
is `str(e)` forwarded verbatim, and a `TypeError` escaping
`verify_signature` propagates. -/
def webhook (parse : List Nat → Except String ParsedMessage)
    (webhook_secret : Option String) (store : Store) (body : List Nat)
    (x_signature : Option String) (now : String) : Store × WebhookOutcome :=
  match verify_signature webhook_secret body x_signature with
  | none => (store, .serverError)
  | some false => (store, .unauthorized "invalid signature")
  | some true =>
    match parse body with
    | .error e => (store, .validationFailed e)
    | .ok m =>
      let r := insert_message store m.message_id m.from_msisdn m.to_msisdn m.ts m.text now
      (r.1, .accepted r.2.2)

/-- Strict `(ts, message_id)` comparison: `rowLe` together with distinct
ids.  On stores whose `message_id`s are pairwise distinct this is the order
the page is sorted in. -/
def rowLt (a b : Row) : Prop := rowLe a b ∧ a.message_id ≠ b.message_id

/-- Scenario D store: ts values 09:00Z, 10:00Z, 10:00Z with ids m3, m1, m2
respectively, inserted in the order m2, m1, m3. -/
def scenarioDStore : Store :=
  [⟨"m2", "+10", "+20", "2025-01-15T10:00:00Z", none, "c"⟩,
   ⟨"m1", "+10", "+20", "2025-01-15T10:00:00Z", none, "c"⟩,
   ⟨"m3", "+10", "+20", "2025-01-15T09:00:00Z", none, "c"⟩]

/-- A stored row used to exercise the `q` (textContains) filter. -/
def textRow : Row :=
  ⟨"t1", "+10", "+20", "2025-01-15T10:00:00Z", some "Hello World", "c"⟩

def startsWithList : List Char → List Char → Bool
  | [], _ => true
  | _ :: _, [] => false
  | a :: as, b :: bs => a == b && startsWithList as bs

/-- Literal (case-sensitive) substring containment on character lists. -/
def containsList (needle : List Char) : List Char → Bool
  | [] => startsWithList needle []
  | c :: rest => startsWithList needle (c :: rest) || containsList needle rest

/-- The `textContains` filter as the spec words it (for the C4 comparison):
a case-sensitive literal substring match against `text`, with no wildcard
interpretation; a `NULL` text contains nothing. -/
def specTextContains (q : String) (text : Option String) : Bool :=
  match text with
  | none => false
  | some t => containsList q.data t.data

/-- Scenario E store: 11 messages from 11 distinct senders, one each. -/
def scenarioEStore : Store :=
  [⟨"m01", "+1", "+9", "2025-01-01T00:00:00Z", none, "c"⟩,
   ⟨"m02", "+2", "+9", "2025-01-02T00:00:00Z", none, "c"⟩,
   ⟨"m03", "+3", "+9", "2025-01-03T00:00:00Z", none, "c"⟩,
   ⟨"m04", "+4", "+9", "2025-01-04T00:00:00Z", none, "c"⟩,
   ⟨"m05", "+5", "+9", "2025-01-05T00:00:00Z", none, "c"⟩,
   ⟨"m06", "+6", "+9", "2025-01-06T00:00:00Z", none, "c"⟩,
   ⟨"m07", "+7", "+9", "2025-01-07T00:00:00Z", none, "c"⟩,
   ⟨"m08", "+8", "+9", "2025-01-08T00:00:00Z", none, "c"⟩,
   ⟨"m09", "+19", "+9", "2025-01-09T00:00:00Z", none, "c"⟩,
   ⟨"m10", "+29", "+9", "2025-01-10T00:00:00Z", none, "c"⟩,
   ⟨"m11", "+39", "+9", "2025-01-11T00:00:00Z", none, "c"⟩]

theorem toBytesBE_lt (k v : Nat) : ∀ b ∈ toBytesBE k v, b < 256 := by
  intro b hb
  simp only [toBytesBE, List.mem_map] at hb
  obtain ⟨i, _, rfl⟩ := hb
  exact Nat.mod_lt _ (by norm_num)

theorem sha256_lt (msg : List Nat) : ∀ b ∈ sha256 msg, b < 256 := by
  intro b hb
  simp only [sha256, List.mem_flatten, List.mem_map] at hb
  obtain ⟨w, ⟨x, _, rfl⟩, hbw⟩ := hb
  exact toBytesBE_lt 4 x b hbw

theorem hmacSha256_lt (key msg : List Nat) : ∀ b ∈ hmacSha256 key msg, b < 256 := by
  intro b hb
  exact sha256_lt _ b hb

theorem hexChar_toNat_lt (n : Nat) (h : n < 16) : (hexChar n).toNat < 128 := by
  interval_cases n <;> decide

theorem hexdigest_ascii (l : List Nat) (hl : ∀ b ∈ l, b < 256) :
    isAsciiString (hexdigest l) = true := by
  simp only [isAsciiString, hexdigest, List.all_eq_true, List.mem_flatten, List.mem_map]
  rintro c ⟨w, ⟨b, hb, rfl⟩, hc⟩
  have hb256 := hl b hb
  simp only [List.mem_cons, List.mem_singleton, List.not_mem_nil, or_false] at hc
  rcases hc with rfl | rfl
  · exact decide_eq_true (hexChar_toNat_lt _ (Nat.div_lt_iff_lt_mul (by norm_num) |>.mpr hb256))
  · exact decide_eq_true (hexChar_toNat_lt _ (Nat.mod_lt _ (by norm_num)))

theorem compare_digest_eq (a b : String) (ha : isAsciiString a = true)
    (hb : isAsciiString b = true) : compare_digest a b = some (a == b) := by
  simp [compare_digest, ha, hb]

theorem verify_signature_eval (B : List Nat) (S h : String) (hS : S ≠ "")
    (hh : h ≠ "") (hascii : isAsciiString h = true) :
    verify_signature (some S) B (some h)
      = some (hexdigest (hmacSha256 (utf8 S) B) == h) := by
  have hexp : isAsciiString (hexdigest (hmacSha256 (utf8 S) B)) = true :=
    hexdigest_ascii _ (hmacSha256_lt (utf8 S) B)
  simp [verify_signature, pyTruthy, hh, hS, compare_digest_eq _ _ hexp hascii]

/-- C1: `insert_message` is idempotent on `message_id`.  If a row with the
given `message_id` exists, the store is left entirely unchanged (including
the existing row's fields and `created_at`) and the call reports
`"duplicate"` as a success; otherwise exactly the one new row is appended
and the call reports `"created"`.  Inserting the same `message_id` twice,
even with differing other fields, leaves exactly one stored row and
produces the outcome sequence `"created"`, `"duplicate"`. -/
theorem C1_insert_if_absent :
    (∀ (store : Store) (mid f t ts : String) (x : Option String) (c : String),
        (∃ r ∈ store, r.message_id = mid) →
        insert_message store mid f t ts x c = (store, false, "duplicate")) ∧
    (∀ (store : Store) (mid f t ts : String) (x : Option String) (c : String),
        (∀ r ∈ store, r.message_id ≠ mid) →
        insert_message store mid f t ts x c
          = (store ++ [⟨mid, f, t, ts, x, c⟩], true, "created")) ∧
    (∀ (store : Store) (mid f₁ t₁ ts₁ : String) (x₁ : Option String) (c₁ : String)
        (f₂ t₂ ts₂ : String) (x₂ : Option String) (c₂ : String),
        (∀ r ∈ store, r.message_id ≠ mid) →
        insert_message store mid f₁ t₁ ts₁ x₁ c₁
            = (store ++ [⟨mid, f₁, t₁, ts₁, x₁, c₁⟩], true, "created") ∧
        insert_message (store ++ [⟨mid, f₁, t₁, ts₁, x₁, c₁⟩]) mid f₂ t₂ ts₂ x₂ c₂
            = (store ++ [⟨mid, f₁, t₁, ts₁, x₁, c₁⟩], false, "duplicate")) := by
  have hdup : ∀ (store : Store) (mid f t ts : String) (x : Option String) (c : String),
      (∃ r ∈ store, r.message_id = mid) →
      insert_message store mid f t ts x c = (store, false, "duplicate") := by
    intro store mid f t ts x c ⟨r, hr, hid⟩
    have : store.any (fun r => r.message_id == mid) = true :=
      List.any_eq_true.mpr ⟨r, hr, beq_iff_eq.mpr hid⟩
    simp [insert_message, this]
  have hnew : ∀ (store : Store) (mid f t ts : String) (x : Option String) (c : String),
      (∀ r ∈ store, r.message_id ≠ mid) →
      insert_message store mid f t ts x c
        = (store ++ [⟨mid, f, t, ts, x, c⟩], true, "created") := by
    intro store mid f t ts x c habs
    have : store.any (fun r => r.message_id == mid) = false := by
      simp only [List.any_eq_false]
      intro r hr
      simpa using habs r hr
    simp [insert_message, this]
  refine ⟨hdup, hnew, ?_⟩
  intro store mid f₁ t₁ ts₁ x₁ c₁ f₂ t₂ ts₂ x₂ c₂ habs
  refine ⟨hnew store mid f₁ t₁ ts₁ x₁ c₁ habs, ?_⟩
  exact hdup _ mid f₂ t₂ ts₂ x₂ c₂
    ⟨⟨mid, f₁, t₁, ts₁, x₁, c₁⟩, by simp, rfl⟩

/-- Witness for C1: inserting `m1` twice into an empty store, with differing
other fields, stores one row and reports `"created"` then `"duplicate"`. -/
theorem C1_witness :
    insert_message [] "m1" "+1" "+2" "2025-01-15T10:00:00Z" (some "a") "c1"
        = ([⟨"m1", "+1", "+2", "2025-01-15T10:00:00Z", some "a", "c1"⟩], true, "created") ∧
    insert_message [⟨"m1", "+1", "+2", "2025-01-15T10:00:00Z", some "a", "c1"⟩]
        "m1" "+9" "+8" "2024-01-01T00:00:00Z" none "c2"
        = ([⟨"m1", "+1", "+2", "2025-01-15T10:00:00Z", some "a", "c1"⟩], false, "duplicate") :=
  C1_insert_if_absent.2.2 [] "m1" "+1" "+2" "2025-01-15T10:00:00Z" (some "a") "c1"
    "+9" "+8" "2024-01-01T00:00:00Z" none "c2" (by simp)

/-- C2 (amended): with a non-empty secret and a non-empty ASCII signature
header, `verify_signature` returns true exactly when the header equals the
lowercase hex HMAC-SHA256 of the body under the secret, and false for every
other ASCII header; it returns false when the header is absent or empty and
when the secret is unset or empty.  (For a header containing a non-ASCII
character, `hmac.compare_digest` raises `TypeError` instead of returning
false — see the counterexample.) -/
theorem C2_verify_signature :
    (∀ (B : List Nat) (S h : String), S ≠ "" → h ≠ "" → isAsciiString h = true →
        ((verify_signature (some S) B (some h) = some true ↔
            h = hexdigest (hmacSha256 (utf8 S) B)) ∧
          (h ≠ hexdigest (hmacSha256 (utf8 S) B) →
            verify_signature (some S) B (some h) = some false))) ∧
    (∀ (B : List Nat) (S : String),
        verify_signature (some S) B none = some false ∧
        verify_signature (some S) B (some "") = some false) ∧
    (∀ (B : List Nat) (h : Option String),
        verify_signature none B h = some false ∧
        verify_signature (some "") B h = some false) := by
  refine ⟨?_, ?_, ?_⟩
  · intro B S h hS hh hascii
    rw [verify_signature_eval B S h hS hh hascii]
    constructor
    · constructor
      · intro he
        exact (beq_iff_eq.mp (Option.some.inj he)).symm
      · intro he
        rw [he, beq_self_eq_true]
    · intro hne
      rw [beq_eq_false_iff_ne.mpr (fun e => hne e.symm)]
  · intro B S
    exact ⟨rfl, rfl⟩
  · intro B h
    cases h with
    | none => exact ⟨rfl, rfl⟩
    | some s =>
        constructor <;> simp [verify_signature, pyTruthy]

/-- Witness for C2 at concrete inputs (body `[104, 105]`, secret `"s"`). -/
theorem C2_witness :
    verify_signature (some "s") [104, 105]
        (some (hexdigest (hmacSha256 (utf8 "s") [104, 105]))) = some true ∧
    verify_signature (some "s") [104, 105] (some "123") = some false ∧
    verify_signature (some "s") [104, 105] (some "") = some false ∧
    verify_signature none [104, 105] (some "123") = some false :=
  ⟨(C2_verify_signature.1 [104, 105] "s" _ (by decide) (by decide) (by decide)).1.mpr rfl,
   (C2_verify_signature.1 [104, 105] "s" "123" (by decide) (by decide) (by decide)).2 (by decide),
   (C2_verify_signature.2.1 [104, 105] "s").2,
   (C2_verify_signature.2.2 [104, 105] (some "123")).1⟩

/-- C2 counterexample: for the non-ASCII header `"é"` (with a non-empty
secret and body irrelevant), `verify_signature` does not return false as
the claim states — `hmac.compare_digest` on `str` arguments raises
`TypeError` for non-ASCII input, which propagates. -/
theorem C2_counterexample :
    verify_signature (some "s") [104, 105] (some "é") = none ∧
    verify_signature (some "s") [104, 105] (some "é") ≠ some false := by
  have hne : isAsciiString "é" = false := by decide
  have h : verify_signature (some "s") [104, 105] (some "é") = none := by
    simp [verify_signature, pyTruthy, compare_digest, hne]
  exact ⟨h, by rw [h]; exact fun hc => Option.noConfusion hc⟩

/-- C9: a request whose signature verification rejects terminates with the
`Unauthorized` outcome and an unchanged store, for every possible parse
collaborator; more generally, whenever verification does not succeed the
store is unchanged and the result does not depend on the parse collaborator
at all — the payload is never parsed. -/
theorem C9_unauthorized_before_parse :
    (∀ (parse : List Nat → Except String ParsedMessage) (secret : Option String)
        (store : Store) (body : List Nat) (sig : Option String) (now : String),
        verify_signature secret body sig = some false →
        webhook parse secret store body sig now
          = (store, WebhookOutcome.unauthorized "invalid signature")) ∧
    (∀ (parse parse' : List Nat → Except String ParsedMessage) (secret : Option String)
        (store : Store) (body : List Nat) (sig : Option String) (now : String),
        verify_signature secret body sig ≠ some true →
        (webhook parse secret store body sig now).1 = store ∧
        webhook parse secret store body sig now
          = webhook parse' secret store body sig now) := by
  constructor
  · intro parse secret store body sig now h
    simp [webhook, h]
  · intro parse parse' secret store body sig now h
    cases hv : verify_signature secret body sig with
    | none => simp [webhook, hv]
    | some b =>
      cases b with
      | false => simp [webhook, hv]
      | true => exact absurd hv h

/-- Witness for C9, Scenario B: with secret `"testsecret"` and the wrong
signature `"123"`, the request is rejected as unauthorized with the store
left empty, whatever the parse collaborator would have produced. -/
theorem C9_witness :
    webhook (fun _ => Except.ok ⟨"m1", "+1", "+2", "2025-01-15T10:00:00Z", none⟩)
        (some "testsecret") [] (utf8 "{}") (some "123") "now"
      = ([], WebhookOutcome.unauthorized "invalid signature") :=
  C9_unauthorized_before_parse.1 _ (some "testsecret") [] (utf8 "{}") (some "123") "now"
    (by decide)

/-- C6: the `Unauthorized` outcome carries only the static string
`"invalid signature"`; but the `ValidationFailed` outcome forwards `str(e)`
— the raw text of whatever exception `json.loads` or the pydantic
constructor raised — verbatim to the caller, contrary to the claim that
only the violated constraint is surfaced. -/
theorem C6_detail_forwards_exception_text :
    (∀ (parse : List Nat → Except String ParsedMessage) (secret : Option String)
        (store : Store) (body : List Nat) (sig : Option String) (now e : String),
        verify_signature secret body sig = some true →
        parse body = Except.error e →
        webhook parse secret store body sig now
          = (store, WebhookOutcome.validationFailed e)) ∧
    (∀ (parse : List Nat → Except String ParsedMessage) (secret : Option String)
        (store : Store) (body : List Nat) (sig : Option String) (now : String),
        verify_signature secret body sig = some false →
        webhook parse secret store body sig now
          = (store, WebhookOutcome.unauthorized "invalid signature")) := by
  constructor
  · intro parse secret store body sig now e hv hp
    simp [webhook, hv, hp]
  · intro parse secret store body sig now hv
    simp [webhook, hv]

/-- Witness for C6: a correctly signed body that is not JSON is answered
with the raw `json.JSONDecodeError` text (what CPython produces for the
body `"not json"`) as the caller-visible 422 detail. -/
theorem C6_witness :
    webhook (fun _ => Except.error "Expecting value: line 1 column 1 (char 0)")
        (some "testsecret") [] (utf8 "not json")
        (some (hexdigest (hmacSha256 (utf8 "testsecret") (utf8 "not json")))) "now"
      = ([], WebhookOutcome.validationFailed "Expecting value: line 1 column 1 (char 0)") :=
  C6_detail_forwards_exception_text.1 _ (some "testsecret") [] (utf8 "not json")
    (some (hexdigest (hmacSha256 (utf8 "testsecret") (utf8 "not json")))) "now"
    "Expecting value: line 1 column 1 (char 0)" (by decide) rfl

/-- C5 (amended): `validate_msisdn` succeeds iff the value starts with `+`
and the remainder is non-empty with every character a Python `str.isdigit`
character — all Unicode decimal digits, not only ASCII `0`–`9`; every
string of `+` followed by one or more ASCII digits is accepted, with no
upper length bound. -/
theorem C5_validate_msisdn :
    (∀ v : String, validate_msisdn v = true ↔
        (pyStartsWithPlus v = true ∧ v.data.tail ≠ [] ∧
          ∀ c ∈ v.data.tail, pyCharIsDigit c = true)) ∧
    (∀ v : String, specMsisdnOk v = true → validate_msisdn v = true) := by
  have hiff : ∀ v : String, validate_msisdn v = true ↔
      (pyStartsWithPlus v = true ∧ v.data.tail ≠ [] ∧
        ∀ c ∈ v.data.tail, pyCharIsDigit c = true) := by
    intro v
    simp [validate_msisdn, pyStrIsDigit, List.all_eq_true, List.isEmpty_iff,
      and_assoc]
  refine ⟨hiff, ?_⟩
  intro v hspec
  simp only [specMsisdnOk, Bool.and_eq_true, List.all_eq_true,
    List.isEmpty_iff, Bool.not_eq_true', decide_eq_true_eq] at hspec
  obtain ⟨⟨hplus, hne⟩, hall⟩ := hspec
  refine (hiff v).mpr ⟨hplus, by simpa using hne, fun c hc => ?_⟩
  have hd := hall c hc
  simp only [Bool.and_eq_true, decide_eq_true_eq] at hd
  simp only [pyCharIsDigit, Bool.or_eq_true, Bool.and_eq_true, decide_eq_true_eq]
  exact Or.inl (Or.inl (Or.inl (Or.inl (Or.inl (Or.inl (Or.inl (Or.inl (Or.inl
    (Or.inl (Or.inl (Or.inl (Or.inl (Or.inl (Or.inl (Or.inl (Or.inl (Or.inl
    ⟨hd.1, hd.2⟩)))))))))))))))))

/-- Witness for C5: `"+123"` is accepted both by the spec's ASCII rule and
by the code. -/
theorem C5_witness :
    specMsisdnOk "+123" = true ∧ validate_msisdn "+123" = true :=
  ⟨by decide, C5_validate_msisdn.2 "+123" (by decide)⟩

/-- C5 counterexample: `"+٣"` (`+` followed by U+0663, ARABIC-INDIC DIGIT
THREE) contains a non-ASCII-digit character after the `+`, so the claim says
it is rejected; `validate_msisdn` accepts it, because Python `str.isdigit`
is true for all Unicode digits. -/
theorem C5_counterexample :
    validate_msisdn "+٣" = true ∧ specMsisdnOk "+٣" = false := by
  constructor <;> decide

/-- C8: `validate_timestamp` succeeds iff the string ends with the literal
`Z` and the value with `Z` replaced by `+00:00` parses as a valid ISO-8601
date-time; in particular `"2025-01-15T10:00:00+05:30"` is valid ISO-8601
yet rejected, because the literal-`Z` check runs first, while
`"2025-01-15T10:00:00Z"` is accepted. -/
theorem C8_validate_timestamp :
    (∀ v : String, validate_timestamp v = true ↔
        (pyEndsWithZ v = true ∧ pyFromIsoFormatOk (pyReplaceZ v) = true)) ∧
    (validate_timestamp "2025-01-15T10:00:00+05:30" = false ∧
      pyFromIsoFormatOk "2025-01-15T10:00:00+05:30" = true ∧
      validate_timestamp "2025-01-15T10:00:00Z" = true) := by
  refine ⟨fun v => ?_, by decide, by decide, by decide⟩
  simp [validate_timestamp]

/-- Witness for C8: the `Z`-suffixed Scenario A timestamp satisfies both
sides of the equivalence. -/
theorem C8_witness :
    validate_timestamp "2025-01-15T10:00:00Z" = true ∧
    pyFromIsoFormatOk (pyReplaceZ "2025-01-15T10:00:00Z") = true :=
  ⟨(C8_validate_timestamp.1 "2025-01-15T10:00:00Z").mpr ⟨by decide, by decide⟩,
   by decide⟩

instance rowLe.total : IsTotal Row rowLe :=
  ⟨fun a b => by
    rcases lt_trichotomy a.ts.data b.ts.data with h | h | h
    · exact Or.inl (Or.inl h)
    · rcases le_total a.message_id.data b.message_id.data with h2 | h2
      · exact Or.inl (Or.inr ⟨h, h2⟩)
      · exact Or.inr (Or.inr ⟨h.symm, h2⟩)
    · exact Or.inr (Or.inl h)⟩

instance rowLe.trans : IsTrans Row rowLe :=
  ⟨fun a b c hab hbc => by
    rcases hab with h1 | ⟨e1, m1⟩ <;> rcases hbc with h2 | ⟨e2, m2⟩
    · exact Or.inl (h1.trans h2)
    · exact Or.inl (lt_of_lt_of_eq h1 e2)
    · exact Or.inl (lt_of_eq_of_lt e1 h2)
    · exact Or.inr ⟨e1.trans e2, m1.trans m2⟩⟩

instance rowLt.antisymm : IsAntisymm Row rowLt :=
  ⟨fun a b h1 h2 => by
    exfalso
    rcases h1.1 with hl1 | ⟨he1, hm1⟩ <;> rcases h2.1 with hl2 | ⟨he2, hm2⟩
    · exact lt_irrefl _ (hl1.trans hl2)
    · exact lt_irrefl _ (lt_of_lt_of_eq hl1 he2)
    · exact lt_irrefl _ (lt_of_lt_of_eq hl2 he1)
    · exact h1.2 (String.toList_inj.mp (le_antisymm hm1 hm2))⟩

theorem sorted_rowLt (l : List Row) (hs : l.Sorted rowLe)
    (hnd : (l.map (·.message_id)).Nodup) : l.Sorted rowLt := by
  have hpw : l.Pairwise (fun a b => a.message_id ≠ b.message_id) :=
    List.pairwise_map.mp hnd
  exact (hs.and hpw).imp (fun h => ⟨h.1, h.2⟩)

theorem insertionSort_eq_of_perm (l₁ l₂ : List Row) (hp : l₁.Perm l₂)
    (hnd : (l₁.map (·.message_id)).Nodup) :
    List.insertionSort rowLe l₁ = List.insertionSort rowLe l₂ := by
  have hp₁ := List.perm_insertionSort rowLe l₁
  have hp₂ := List.perm_insertionSort rowLe l₂
  have hp' : (List.insertionSort rowLe l₁).Perm (List.insertionSort rowLe l₂) :=
    hp₁.trans (hp.trans hp₂.symm)
  have hnd₁ : ((List.insertionSort rowLe l₁).map (·.message_id)).Nodup :=
    ((hp₁.map (·.message_id)).nodup_iff).mpr hnd
  have hnd₂ : ((List.insertionSort rowLe l₂).map (·.message_id)).Nodup :=
    ((hp'.map (·.message_id)).nodup_iff).mp hnd₁
  exact List.eq_of_perm_of_sorted hp'
    (sorted_rowLt _ (List.sorted_insertionSort rowLe l₁) hnd₁)
    (sorted_rowLt _ (List.sorted_insertionSort rowLe l₂) hnd₂)

theorem matchesFilters_none (r : Row) : matchesFilters none none none r = true := rfl

theorem filter_matchesFilters_none (store : Store) :
    store.filter (matchesFilters none none none) = store :=
  List.filter_eq_self.mpr (fun a _ => matchesFilters_none a)

/-- C3: the query result is determined by the set of stored messages, not
the insertion order (given globally unique `message_id`s); an unfiltered
query with a large-enough limit returns exactly the stored messages; every
page is sorted by `(ts, message_id)` ascending; and Scenario D — ts values
09:00Z, 10:00Z, 10:00Z with ids m3, m1, m2, inserted in the order
m2, m1, m3 — is returned in the order m3, m1, m2. -/
theorem C3_query_ordering :
    (∀ (s₁ s₂ : Store) (limit offset : Nat) (fromF sinceF qF : Option String),
        s₁.Perm s₂ → (s₁.map (·.message_id)).Nodup →
        get_messages s₁ limit offset fromF sinceF qF
          = get_messages s₂ limit offset fromF sinceF qF) ∧
    (∀ (store : Store) (limit : Nat), store.length ≤ limit →
        ((get_messages store limit 0 none none none).1).Perm (store.map toOut)) ∧
    (∀ (store : Store) (limit offset : Nat) (fromF sinceF qF : Option String),
        ((get_messages store limit offset fromF sinceF qF).1).Pairwise
          (fun a b => a.ts.data < b.ts.data ∨
            (a.ts.data = b.ts.data ∧ a.message_id.data ≤ b.message_id.data))) ∧
    ((get_messages scenarioDStore 50 0 none none none).1.map (·.message_id)
        = ["m3", "m1", "m2"]) := by
  refine ⟨?_, ?_, ?_, by decide⟩
  · intro s₁ s₂ limit offset fromF sinceF qF hp hnd
    have hpf : (s₁.filter (matchesFilters fromF sinceF qF)).Perm
        (s₂.filter (matchesFilters fromF sinceF qF)) := hp.filter _
    have hndf : ((s₁.filter (matchesFilters fromF sinceF qF)).map
        (·.message_id)).Nodup :=
      hnd.sublist ((List.filter_sublist s₁).map _)
    simp only [get_messages, insertionSort_eq_of_perm _ _ hpf hndf, hpf.length_eq]
  · intro store limit hlim
    simp only [get_messages, filter_matchesFilters_none, List.drop_zero]
    have hlen : (List.insertionSort rowLe store).length ≤ limit := by
      rw [(List.perm_insertionSort rowLe store).length_eq]; exact hlim
    rw [List.take_of_length_le hlen]
    exact (List.perm_insertionSort rowLe store).map toOut
  · intro store limit offset fromF sinceF qF
    have hs : (List.insertionSort rowLe
        (store.filter (matchesFilters fromF sinceF qF))).Sorted rowLe :=
      List.sorted_insertionSort rowLe _
    have hpage : ((((List.insertionSort rowLe
        (store.filter (matchesFilters fromF sinceF qF))).drop offset).take
          limit)).Sorted rowLe :=
      hs.sublist ((List.take_sublist _ _).trans (List.drop_sublist _ _))
    exact List.pairwise_map.mpr (hpage.imp (fun h => h))

/-- Witness for C3: the Scenario D store queried against a permutation of
itself gives the same result, and the full unfiltered page is a
permutation of the stored messages. -/
theorem C3_witness :
    get_messages scenarioDStore 50 0 none none none
        = get_messages scenarioDStore.reverse 50 0 none none none ∧
    ((get_messages scenarioDStore 50 0 none none none).1).Perm
        (scenarioDStore.map toOut) :=
  ⟨C3_query_ordering.1 scenarioDStore scenarioDStore.reverse 50 0 none none none
      (List.reverse_perm scenarioDStore).symm (by decide),
   C3_query_ordering.2.1 scenarioDStore 50 (by decide)⟩

/-- C4 (amended): a non-empty `q` filter selects exactly the stored messages
whose `text` is non-NULL and matches the SQLite `LIKE` pattern
`'%' + q + '%'` — a case-insensitive match for ASCII letters in which `%`
and `_` occurring in `q` act as wildcards, not a case-sensitive literal
substring match; an empty `q` disables the filter entirely (every row is
selected, NULL text included).  Concretely, the row with text
`"Hello World"` is selected both by `q = "hello"` and by `q = "Hello"`. -/
theorem C4_textContains_filter :
    (∀ (store : Store) (q : String), q ≠ "" →
        store.filter (matchesFilters none none (some q))
          = store.filter (fun r =>
              match r.text with
              | none => false
              | some t => likeMatch ('%' :: (q.data ++ ['%'])) t.data)) ∧
    (∀ store : Store, store.filter (matchesFilters none none (some "")) = store) ∧
    ((get_messages [textRow] 50 0 none none (some "hello")).2 = 1 ∧
      (get_messages [textRow] 50 0 none none (some "Hello")).2 = 1) := by
  refine ⟨?_, ?_, by decide, by decide⟩
  · intro store q hq
    refine List.filter_congr (fun r _ => ?_)
    simp [matchesFilters, pyTruthy, hq]
  · intro store
    exact List.filter_eq_self.mpr (fun r _ => rfl)

/-- Witness for C4 at concrete inputs. -/
theorem C4_witness :
    [textRow].filter (matchesFilters none none (some "hello"))
        = [textRow].filter (fun r =>
            match r.text with
            | none => false
            | some t => likeMatch ('%' :: ("hello".data ++ ['%'])) t.data) ∧
    [textRow].filter (matchesFilters none none (some "")) = [textRow] :=
  ⟨C4_textContains_filter.1 [textRow] "hello" (by decide),
   C4_textContains_filter.2.1 [textRow]⟩

/-- C4 counterexample: with the single stored row whose text is
`"Hello World"`, the query `q = "hello"` selects the row (`total = 1`),
although `"hello"` is not a case-sensitive literal substring of
`"Hello World"` — the filter is not the case-sensitive substring match the
claim states. -/
theorem C4_counterexample :
    (get_messages [textRow] 50 0 none none (some "hello")).2 = 1 ∧
    specTextContains "hello" textRow.text = false := by
  constructor <;> decide

instance countDesc.total : IsTotal SenderCount countDesc :=
  ⟨fun a b => le_total b.count a.count⟩

instance countDesc.trans : IsTrans SenderCount countDesc :=
  ⟨fun _ _ _ hab hbc => Nat.le_trans hbc hab⟩

theorem sum_map_ite_of_not_mem (l : List String) (a : String) (h : a ∉ l) :
    (l.map (fun s => if s = a then 1 else 0)).sum = 0 := by
  induction l with
  | nil => rfl
  | cons b t ih =>
    simp only [List.map_cons, List.sum_cons]
    rw [if_neg (fun e => h (by rw [← e]; exact List.mem_cons_self b t)),
      ih (fun m => h (List.mem_cons_of_mem b m))]

theorem sum_map_ite_of_nodup (l : List String) (a : String) (hnd : l.Nodup)
    (ha : a ∈ l) : (l.map (fun s => if s = a then 1 else 0)).sum = 1 := by
  induction l with
  | nil => cases ha
  | cons b t ih =>
    obtain ⟨hbt, hndt⟩ := List.nodup_cons.mp hnd
    simp only [List.map_cons, List.sum_cons]
    rcases List.mem_cons.mp ha with rfl | hm
    · rw [if_pos rfl, sum_map_ite_of_not_mem t a hbt]
    · rw [if_neg (fun e => hbt (by rw [e]; exact hm)), ih hndt hm]

theorem sum_map_count_cons (l d : List String) (a : String) :
    (d.map (fun s => (a :: l).count s)).sum
      = (d.map (fun s => l.count s)).sum
        + (d.map (fun s => if s = a then 1 else 0)).sum := by
  induction d with
  | nil => rfl
  | cons b t ih =>
    simp only [List.map_cons, List.sum_cons]
    rw [ih]
    rcases eq_or_ne b a with h | h
    · subst h
      rw [List.count_cons_self, if_pos rfl]
      omega
    · rw [List.count_cons_of_ne h, if_neg h]
      omega

theorem sum_map_count_dedup (l : List String) :
    ((l.dedup.map (fun s => l.count s)).sum) = l.length := by
  induction l with
  | nil => rfl
  | cons a t ih =>
    by_cases hm : a ∈ t
    · rw [List.dedup_cons_of_mem hm, sum_map_count_cons t t.dedup a, ih,
        sum_map_ite_of_nodup t.dedup a (List.nodup_dedup t)
          (List.mem_dedup.mpr hm)]
      simp
    · rw [List.dedup_cons_of_not_mem hm]
      simp only [List.map_cons, List.sum_cons]
      rw [sum_map_count_cons t t.dedup a, ih,
        sum_map_ite_of_not_mem t.dedup a (fun c => hm (List.mem_dedup.mp c)),
        List.count_cons_self, List.count_eq_zero.mpr hm]
      simp [Nat.add_comm]

/-- C7: when at most 10 distinct senders exist, the per-sender counts sum to
`total_messages`; with more than 10 distinct senders exactly 10 entries are
returned; every returned entry carries the true message count of its
sender, and the entries are in descending count order; on the Scenario E
store (11 senders, one message each) the 10 returned counts sum to 10 while
`total_messages` is 11. -/
theorem C7_stats_consistency :
    (∀ store : Store, (get_stats store).senders_count ≤ 10 →
        ((get_stats store).messages_per_sender.map (·.count)).sum
          = (get_stats store).total_messages) ∧
    (∀ store : Store, 10 < (get_stats store).senders_count →
        (get_stats store).messages_per_sender.length = 10) ∧
    (∀ (store : Store) (e : SenderCount),
        e ∈ (get_stats store).messages_per_sender →
        e.count = (senderList store).count e.from_msisdn) ∧
    (∀ store : Store, ((get_stats store).messages_per_sender).Pairwise countDesc) ∧
    (((get_stats scenarioEStore).messages_per_sender.map (·.count)).sum = 10 ∧
      (get_stats scenarioEStore).total_messages = 11 ∧
      (get_stats scenarioEStore).messages_per_sender.length = 10) := by
  refine ⟨?_, ?_, ?_, ?_, by decide, by decide, by decide⟩
  · intro store h
    simp only [get_stats] at h ⊢
    have hlen : (List.insertionSort countDesc (senderCounts store)).length ≤ 10 := by
      rw [(List.perm_insertionSort countDesc _).length_eq, senderCounts,
        List.length_map]
      exact h
    rw [List.take_of_length_le hlen,
      ((List.perm_insertionSort countDesc (senderCounts store)).map
        (·.count)).sum_eq]
    have hsum := sum_map_count_dedup (senderList store)
    simp only [senderCounts, List.map_map]
    simpa [Function.comp_def, senderList] using hsum
  · intro store h
    simp only [get_stats] at h ⊢
    rw [List.length_take, (List.perm_insertionSort countDesc _).length_eq,
      senderCounts, List.length_map]
    omega
  · intro store e he
    simp only [get_stats] at he
    have := List.mem_insertionSort countDesc |>.mp (List.mem_of_mem_take he)
    obtain ⟨s, _, rfl⟩ := List.mem_map.mp (by simpa [senderCounts] using this)
    rfl
  · intro store
    simp only [get_stats]
    exact (List.sorted_insertionSort countDesc _).sublist
      (List.take_sublist _ _)

/-- Witness for C7: on the Scenario D store (3 messages, one sender) the
per-sender counts sum to the total of 3; on the Scenario E store more than
10 senders cap the list at 10 entries. -/
theorem C7_witness :
    ((get_stats scenarioDStore).messages_per_sender.map (·.count)).sum
        = (get_stats scenarioDStore).total_messages ∧
    (get_stats scenarioEStore).messages_per_sender.length = 10 :=
  ⟨C7_stats_consistency.1 scenarioDStore (by decide),
   C7_stats_consistency.2.1 scenarioEStore (by decide)⟩

end Webhook
